import Mathlib

set_option maxRecDepth 100000
set_option exponentiation.threshold 4000

/-!
Verification development for the bank-statement import pipeline of
`database.py` (class `BankDatabase`).  The scalar parsers, the per-row
classification/normalization loop of `import_csv_data`, the get-or-create
identity resolution and the commit/rollback boundary are embedded as
executable Lean definitions; theorems about the frozen claims follow the
definitions.
-/

deriving instance DecidableEq for Except

/-! ### String helpers (Python `str` fragment used by the source) -/

/-- Whitespace characters stripped by Python `str.strip()` (ASCII fragment). -/
def isWS (c : Char) : Bool :=
  c = ' ' || c = '\t' || c = '\n' || c = '\r' || c = '\x0b' || c = '\x0c'

def trimChars (cs : List Char) : List Char :=
  ((cs.dropWhile isWS).reverse.dropWhile isWS).reverse

/-- Python `str.strip()`. -/
def pyStrip (s : String) : String := ⟨trimChars s.data⟩

/-- Python `str.replace(c, '')`: remove every occurrence of one character. -/
def removeChar (c : Char) (s : String) : String :=
  ⟨s.data.filter (fun a => a != c)⟩

def startsWithC (s : String) (c : Char) : Bool :=
  match s.data with
  | [] => false
  | a :: _ => a == c

def endsWithC (s : String) (c : Char) : Bool :=
  match s.data.getLast? with
  | none => false
  | some a => a == c

/-- Python `c in s` for a single character. -/
def containsC (s : String) (c : Char) : Bool := s.data.any (fun a => a == c)

def leadMatch : List Char → List Char → Bool
  | [], _ => true
  | _ :: _, [] => false
  | a :: as, b :: bs => a == b && leadMatch as bs

def hasSub : List Char → List Char → Bool
  | [], nee => nee.isEmpty
  | a :: rest, nee => leadMatch nee (a :: rest) || hasSub rest nee

/-- Python `sub in s` (substring containment). -/
def strHas (s sub : String) : Bool := hasSub s.data sub.data

def digitsToNat (cs : List Char) : Nat :=
  cs.foldl (fun acc c => acc * 10 + (c.toNat - 48)) 0

/-! ### Python `decimal.Decimal` values and the numeric-string grammar -/

/-- Value of a Python `Decimal`: a finite exact rational, a (quiet or
signaling) NaN, or a signed infinity. -/
inductive PyDec where
  | fin (q : ℚ)
  | nan (signaling : Bool)
  | inf (neg : Bool)
deriving DecidableEq

/-! Rational helpers built on `Rat.divInt` (which normalizes), so that every
model value is a canonical `Rat` and closed goals evaluate by `decide`. -/

def qofInt (n : ℤ) : ℚ := Rat.divInt n 1

def qmul (a b : ℚ) : ℚ := Rat.divInt (a.num * b.num) ((a.den : ℤ) * (b.den : ℤ))

def qneg (a : ℚ) : ℚ := Rat.divInt (-a.num) (a.den : ℤ)

def qsub (a b : ℚ) : ℚ :=
  Rat.divInt (a.num * (b.den : ℤ) - b.num * (a.den : ℤ)) ((a.den : ℤ) * (b.den : ℤ))

def qdivQ (a b : ℚ) : ℚ := Rat.divInt (a.num * (b.den : ℤ)) ((a.den : ℤ) * b.num)

def qabs (a : ℚ) : ℚ := Rat.divInt (a.num.natAbs : ℤ) (a.den : ℤ)

def qleb (a b : ℚ) : Bool := decide (a.num * (b.den : ℤ) ≤ b.num * (a.den : ℤ))

def qltb (a b : ℚ) : Bool := decide (a.num * (b.den : ℤ) < b.num * (a.den : ℤ))

def pow10 (z : ℤ) : ℚ :=
  match z with
  | .ofNat n => Rat.divInt (Int.ofNat ((10 : ℕ) ^ n)) 1
  | .negSucc n => Rat.divInt 1 (Int.ofNat ((10 : ℕ) ^ (n + 1)))

/-- Finite part of the decimal numeric-string grammar (digits already
lowercased): `digits [. digits?] | . digits`, then optional `e sign? digits`. -/
def parseFinite (neg : Bool) (cs : List Char) : Option PyDec :=
  let ipr := cs.span Char.isDigit
  let ip := ipr.1
  let fdr : List Char × List Char :=
    match ipr.2 with
    | '.' :: r => r.span Char.isDigit
    | r => ([], r)
  let hadDot : Bool := match ipr.2 with | '.' :: _ => true | _ => false
  let fd := fdr.1
  let rest := if hadDot then fdr.2 else ipr.2
  if ip.isEmpty && fd.isEmpty then none
  else
    let expVal : Option ℤ :=
      match rest with
      | [] => some 0
      | 'e' :: r =>
        let sr : Bool × List Char :=
          match r with
          | '+' :: t => (false, t)
          | '-' :: t => (true, t)
          | t => (false, t)
        let edr := sr.2.span Char.isDigit
        if edr.1.isEmpty || !edr.2.isEmpty then none
        else some (if sr.1 then -(digitsToNat edr.1 : ℤ) else (digitsToNat edr.1 : ℤ))
      | _ => none
    match expVal with
    | none => none
    | some e =>
      let coeff : ℕ := digitsToNat (ip ++ fd)
      let mag : ℚ := qmul (qofInt coeff) (pow10 (e - fd.length))
      some (.fin (if neg then qneg mag else mag))

/-- Python `Decimal(str)` constructor on a string (per the documented
numeric-string grammar and `_pydecimal`): strip surrounding whitespace,
remove underscores throughout, optional sign, then either a finite decimal
literal with optional exponent, or the special tokens
`inf`/`infinity`/`nan`/`snan` (case-insensitive, NaN with optional
diagnostic digits).  `none` models a raised `decimal.InvalidOperation`. -/
def pyDecimalOfString (s : String) : Option PyDec :=
  let cs := (trimChars s.data).filter (fun a => a != '_')
  let sr : Bool × List Char :=
    match cs with
    | '+' :: r => (false, r)
    | '-' :: r => (true, r)
    | r => (false, r)
  let neg := sr.1
  let low := sr.2.map Char.toLower
  if low = ['i', 'n', 'f'] || low = ['i', 'n', 'f', 'i', 'n', 'i', 't', 'y'] then
    some (.inf neg)
  else
    match low with
    | 'n' :: 'a' :: 'n' :: ds =>
      if ds.all Char.isDigit then some (.nan false) else none
    | 's' :: 'n' :: 'a' :: 'n' :: ds =>
      if ds.all Char.isDigit then some (.nan true) else none
    | _ => parseFinite neg low

/-- Python unary minus on a `Decimal`; negating a signaling NaN raises
`InvalidOperation`. -/
def decNeg : PyDec → Except Unit PyDec
  | .fin q => .ok (.fin (qneg q))
  | .nan false => .ok (.nan false)
  | .nan true => .error ()
  | .inf b => .ok (.inf (!b))

/-- Python `bool(d)` for a `Decimal` (only zeros are falsy). -/
def decTruthy : PyDec → Bool
  | .fin q => q.num != 0
  | _ => true

/-- Python `d >= 0` for a `Decimal`; an ordering comparison with a NaN
raises `InvalidOperation`. -/
def decGe0 : PyDec → Except String Bool
  | .fin q => .ok (decide (0 ≤ q.num))
  | .inf b => .ok (!b)
  | .nan _ => .error "comparison involving NaN"

/-! ### `parse_amount` (database.py lines 112-127) -/

/-- Line 118: `str(amount_str).replace(',', '').replace('"', '').strip()`. -/
def amtCleaned (s : String) : String := pyStrip (removeChar '"' (removeChar ',' s))

/-- `cleaned[1:-1]`: the text enclosed by the outer parentheses. -/
def amtInner (s : String) : String := ⟨(s.data.drop 1).dropLast⟩

/-- The zero-returning guard of line 114 (empty after stripping, or the
literal token "nan"). -/
def amtTrivial (s : String) : Bool := pyStrip s == "" || pyStrip s == "nan"

/-- `BankDatabase.parse_amount`.  The failure value carries the original raw
text (the source raises `decimal.InvalidOperation` out of the `Decimal`
constructor on that text). -/
def parse_amount (amount_str : Option String) : Except String PyDec :=
  match amount_str with
  | none => .ok (.fin 0)
  | some s =>
    if s == "" || pyStrip s == "" || pyStrip s == "nan" then .ok (.fin 0)
    else
      if startsWithC (amtCleaned s) '-' then
        match pyDecimalOfString (amtCleaned s) with
        | some d => .ok d
        | none => .error s
      else if startsWithC (amtCleaned s) '(' && endsWithC (amtCleaned s) ')' then
        match pyDecimalOfString (amtInner (amtCleaned s)) with
        | some d =>
          match decNeg d with
          | .ok d' => .ok d'
          | .error _ => .error s
        | none => .error s
      else
        match pyDecimalOfString (amtCleaned s) with
        | some d => .ok d
        | none => .error s

/-- The `Decimal` conversion a non-trivial amount goes through, following
the branch its cleaned text selects; `none` when the conversion raises. -/
def amtDecimal (s : String) : Option PyDec :=
  if startsWithC (amtCleaned s) '-' then pyDecimalOfString (amtCleaned s)
  else if startsWithC (amtCleaned s) '(' && endsWithC (amtCleaned s) ')' then
    match pyDecimalOfString (amtInner (amtCleaned s)) with
    | some d => (match decNeg d with | .ok d' => some d' | .error _ => none)
    | none => none
  else pyDecimalOfString (amtCleaned s)

/-! ### `parse_date` (database.py lines 129-141), via `datetime.strptime` -/

/-- Month field of strptime: `(1[0-2]|0[1-9]|[1-9])`, two-digit form. -/
def month2? : List Char → Option (Nat × List Char)
  | '1' :: c :: r =>
    if c = '0' || c = '1' || c = '2' then some (10 + (c.toNat - 48), r) else none
  | '0' :: c :: r =>
    if '1' ≤ c ∧ c ≤ '9' then some (c.toNat - 48, r) else none
  | _ => none

def month1? : List Char → Option (Nat × List Char)
  | c :: r => if '1' ≤ c ∧ c ≤ '9' then some (c.toNat - 48, r) else none
  | [] => none

/-- Day field of strptime: `(3[01]|[12]\d|0[1-9]|[1-9])`, two-digit form. -/
def day2? : List Char → Option (Nat × List Char)
  | '3' :: c :: r => if c = '0' || c = '1' then some (30 + (c.toNat - 48), r) else none
  | '1' :: c :: r => if c.isDigit then some (10 + (c.toNat - 48), r) else none
  | '2' :: c :: r => if c.isDigit then some (20 + (c.toNat - 48), r) else none
  | '0' :: c :: r => if '1' ≤ c ∧ c ≤ '9' then some (c.toNat - 48, r) else none
  | _ => none

/-- Year field of strptime `%Y`: exactly four digits. -/
def year4? : List Char → Option (Nat × List Char)
  | a :: b :: c :: d :: r =>
    if a.isDigit && b.isDigit && c.isDigit && d.isDigit then
      some (digitsToNat [a, b, c, d], r)
    else none
  | _ => none

def lit? (c : Char) : List Char → Option (List Char)
  | a :: r => if a == c then some r else none
  | [] => none

def monthCands (cs : List Char) : List (Nat × List Char) :=
  (month2? cs).toList ++ (month1? cs).toList

def dayCands (cs : List Char) : List (Nat × List Char) :=
  (day2? cs).toList ++ (day1? cs).toList
where
  day1? : List Char → Option (Nat × List Char)
    | c :: r => if '1' ≤ c ∧ c ≤ '9' then some (c.toNat - 48, r) else none
    | [] => none

/-- Full-anchored match of strptime pattern `%m/%d/%Y`; yields (m, d, y). -/
def matchMDY (cs : List Char) : Option (Nat × Nat × Nat) :=
  (monthCands cs).findSome? fun mc =>
    (lit? '/' mc.2).bind fun r2 =>
      (dayCands r2).findSome? fun dc =>
        (lit? '/' dc.2).bind fun r4 =>
          (year4? r4).bind fun yc =>
            if yc.2.isEmpty then some (mc.1, dc.1, yc.1) else none

/-- Full-anchored match of strptime pattern `%Y-%m-%d`; yields (y, m, d). -/
def matchYMD (cs : List Char) : Option (Nat × Nat × Nat) :=
  (year4? cs).bind fun yc =>
    (lit? '-' yc.2).bind fun r2 =>
      (monthCands r2).findSome? fun mc =>
        (lit? '-' mc.2).bind fun r4 =>
          (dayCands r4).findSome? fun dc =>
            if dc.2.isEmpty then some (yc.1, mc.1, dc.1) else none

def isLeap (y : Nat) : Bool := y % 4 = 0 && (y % 100 ≠ 0 || y % 400 = 0)

def daysInMonth (y m : Nat) : Nat :=
  if m = 2 then (if isLeap y then 29 else 28)
  else if m = 4 || m = 6 || m = 9 || m = 11 then 30
  else 31

/-- Validity check done by the `datetime` constructor (year ≥ 1, real
calendar day). The regex already bounds m ≤ 12 and d ≤ 39. -/
def dateValid (y m d : Nat) : Bool :=
  1 ≤ y && 1 ≤ m && m ≤ 12 && 1 ≤ d && d ≤ daysInMonth y m

def pad2 (n : Nat) : String := if n < 10 then "0" ++ toString n else toString n

def pad4 (n : Nat) : String :=
  if n < 10 then "000" ++ toString n
  else if n < 100 then "00" ++ toString n
  else if n < 1000 then "0" ++ toString n
  else toString n

/-- `date_obj.strftime('%Y-%m-%d')`. -/
def fmtISO (y m d : Nat) : String := pad4 y ++ "-" ++ pad2 m ++ "-" ++ pad2 d

/-- `BankDatabase.parse_date`: a string containing `/` goes through
`strptime('%m/%d/%Y')` and is re-formatted as ISO; otherwise
`strptime('%Y-%m-%d')` is attempted and the input returned unchanged on
success.  Failures raise `ValueError("Unable to parse date: ...")`. -/
def parse_date (date_str : String) : Except String String :=
  if containsC date_str '/' then
    match matchMDY date_str.data with
    | some mdy =>
      if dateValid mdy.2.2 mdy.1 mdy.2.1 then .ok (fmtISO mdy.2.2 mdy.1 mdy.2.1)
      else .error ("Unable to parse date: " ++ date_str)
    | none => .error ("Unable to parse date: " ++ date_str)
  else
    match matchYMD date_str.data with
    | some ymd =>
      if dateValid ymd.1 ymd.2.1 ymd.2.2 then .ok date_str
      else .error ("Unable to parse date: " ++ date_str)
    | none => .error ("Unable to parse date: " ++ date_str)

/-! ### Python `float` / sqlite `REAL` values -/

/-- A double-precision value as stored by sqlite in the `DECIMAL` columns
(the source converts every monetary `Decimal` with `float(...)` before the
INSERT/UPDATE binds it). -/
inductive F64 where
  | fin (q : ℚ)
  | pinf
  | ninf
deriving DecidableEq

def log2p (fuel n : Nat) : Nat :=
  match fuel with
  | 0 => 0
  | f + 1 => if n < 2 then 0 else 1 + log2p f (n / 2)

def pow2Q (z : ℤ) : ℚ :=
  match z with
  | .ofNat n => Rat.divInt (Int.ofNat ((2 : ℕ) ^ n)) 1
  | .negSucc n => Rat.divInt 1 (Int.ofNat ((2 : ℕ) ^ (n + 1)))

/-- Floor of log₂ of a positive rational. -/
def qlog2 (q : ℚ) : ℤ :=
  let a : ℤ := log2p q.num.toNat q.num.toNat
  let b : ℤ := log2p q.den q.den
  let c := a - b
  if qleb (pow2Q (c + 1)) q then c + 1
  else if qleb (pow2Q c) q then c
  else c - 1

def qfloor (x : ℚ) : ℤ := Int.fdiv x.num x.den

/-- Round a rational to an integer, ties to even (IEEE-754 default). -/
def halfEven (x : ℚ) : ℤ :=
  let f := qfloor x
  let r := qsub x (qofInt f)
  if qltb r (Rat.divInt 1 2) then f
  else if qltb (Rat.divInt 1 2) r then f + 1
  else if f % 2 = 0 then f else f + 1

/-- Round a rational to IEEE-754 binary64 (round-to-nearest-even, with
subnormals and overflow to infinity): the value Python `float(Decimal q)`
produces. -/
def roundF64 (q : ℚ) : F64 :=
  if q.num = 0 then .fin 0
  else
    let aq := qabs q
    let e := qlog2 aq
    let prec : ℤ := if e < -1022 then -1074 else e - 52
    let m := halfEven (qdivQ aq (pow2Q prec))
    let v := qmul (qofInt m) (pow2Q prec)
    if qleb (pow2Q 1024) v then (if 0 < q.num then .pinf else .ninf)
    else .fin (if 0 < q.num then v else qneg v)

/-- Python `float(d)` for a `Decimal` `d`, then the sqlite3 bind: NaN binds
as NULL (`none`), a signaling NaN raises `ValueError`. -/
def floatBind : PyDec → Except String (Option F64)
  | .fin q => .ok (some (roundF64 q))
  | .nan false => .ok none
  | .nan true => .error "cannot convert signaling NaN to float"
  | .inf b => .ok (some (if b then .ninf else .pinf))

/-- Python truthiness of a float read back from the store. -/
def f64Truthy : F64 → Bool
  | .fin q => q.num != 0
  | _ => true

/-! ### Relational state (banks / accounts / transactions), sqlite-style -/

/-- Row of the `banks` table. -/
structure Bank where
  bank_id : Nat
  bank_name : String
  created_at : Nat
deriving DecidableEq

/-- Row of the `accounts` table.  Timestamps are modeled by a logical clock. -/
structure Account where
  account_id : Nat
  bank_id : Nat
  account_number : String
  account_name : Option String
  account_type : String
  opening_balance : ℚ
  current_balance : Option F64
  is_active : Bool
  created_at : Nat
  updated_at : Nat
deriving DecidableEq

/-- Row of the `transactions` table. -/
structure Txn where
  transaction_id : Nat
  account_id : Nat
  transaction_date : String
  description : String
  amount : F64
  transaction_type : String
  balance_after : Option F64
  created_at : Nat
  updated_at : Nat
deriving DecidableEq

/-- Database contents plus the AUTOINCREMENT counters and the logical clock
used for `CURRENT_TIMESTAMP`. -/
structure DB where
  banks : List Bank
  accounts : List Account
  txns : List Txn
  next_bank_id : Nat
  next_account_id : Nat
  next_txn_id : Nat
  clock : Nat
deriving DecidableEq

/-- A sqlite connection: the durable committed state and the live pending
state (reads see `pending`; `commit` persists it, `rollback` discards it). -/
structure Conn where
  committed : DB
  pending : DB
deriving DecidableEq

def dbCommit (c : Conn) : Conn := ⟨c.pending, c.pending⟩

def dbRollback (c : Conn) : Conn := ⟨c.committed, c.committed⟩

def emptyDB : DB := ⟨[], [], [], 1, 1, 1, 0⟩

def conn0 : Conn := ⟨emptyDB, emptyDB⟩

/-- `BankDatabase.get_or_create_bank` (database.py lines 70-87): SELECT by
name, otherwise INSERT and `conn.commit()` immediately. -/
def get_or_create_bank (c : Conn) (bank_name : String) : Nat × Conn :=
  match c.pending.banks.find? (fun b => b.bank_name == bank_name) with
  | some b => (b.bank_id, c)
  | none =>
    let db := c.pending
    let bid := db.next_bank_id
    let db' := { db with banks := db.banks ++ [⟨bid, bank_name, db.clock⟩],
                         next_bank_id := bid + 1, clock := db.clock + 1 }
    (bid, dbCommit { c with pending := db' })

/-- `BankDatabase.get_or_create_account` (database.py lines 89-110): SELECT
by (bank_id, account_number), otherwise INSERT and commit immediately. -/
def get_or_create_account (c : Conn) (bank_id : Nat) (account_number : String)
    (account_name : Option String) : Nat × Conn :=
  match c.pending.accounts.find?
      (fun a => a.bank_id == bank_id && a.account_number == account_number) with
  | some a => (a.account_id, c)
  | none =>
    let db := c.pending
    let aid := db.next_account_id
    let db' := { db with
      accounts := db.accounts ++
        [⟨aid, bank_id, account_number, account_name, "checking", 0, none, true,
          db.clock, db.clock⟩],
      next_account_id := aid + 1, clock := db.clock + 1 }
    (aid, dbCommit { c with pending := db' })

/-! ### Rows of the tabularized source and the per-row loop -/

/-- One row of the pandas frame after `read_csv(..., skiprows=6)`, restricted
to the fixed four-column statement layout (date, description, amount,
running balance).  A cell is `none` when pandas read it as NaN — which is
also how an empty source cell arrives — and otherwise carries the string
`str(cell)` yields. -/
structure Row where
  c0 : Option String
  c1 : Option String
  c2 : Option String
  c3 : Option String
deriving DecidableEq

/-- Canonical transaction record produced by normalizing a data row,
before the float conversion at the INSERT boundary. -/
structure TxnRecord where
  transaction_date : String
  description : String
  amount : PyDec
  transaction_type : String
  balance_after : Option PyDec
deriving DecidableEq

inductive RowOutcome where
  | skip
  | ok (rec : TxnRecord)
  | err (msg : String)
deriving DecidableEq

/-- `str(e)` of the `decimal.InvalidOperation` raised by a failed `Decimal`
conversion. -/
def convSyntaxMsg : String := "[<class 'decimal.ConversionSyntax'>]"

/-- Line 168: the `description` binding (stripped; empty string when the
cell is NaN). -/
def rowDescription (r : Row) : String :=
  match r.c1 with | some s1 => pyStrip s1 | none => ""

/-- Line 169: the `amount_str` binding (stripped; "0" when the cell is NaN). -/
def rowAmountStr (r : Row) : String :=
  match r.c2 with | some s2 => pyStrip s2 | none => "0"

/-- Line 170: the `balance_str` binding (stripped; None when the cell is
NaN, and the four-column layout makes `len(row) > 3` hold). -/
def rowBalanceStr (r : Row) : Option String :=
  match r.c3 with | some s3 => some (pyStrip s3) | none => none

/-- Body of the per-row loop of `import_csv_data` (database.py lines
160-191) up to but excluding the INSERT: the skip checks in source order,
then date/amount/balance parsing and the credit/debit derivation; any
raised exception becomes `.err` (caught at line 203). -/
def processRow (r : Row) : RowOutcome :=
  match r.c0 with
  | none => .skip
  | some s0 =>
    if pyStrip s0 == "" then .skip
    else
      if strHas (rowDescription r) "Total" || strHas (rowDescription r) "Beginning" ||
         strHas (rowDescription r) "Ending" || strHas (rowDescription r) "Summary" then
        .skip
      else if pyStrip s0 == "Date" || rowDescription r == "Description" then .skip
      else if (match r.c2 with | none => true | some s2 => pyStrip s2 == "nan") then
        .skip
      else
        match parse_date (pyStrip s0) with
        | .error m => .err m
        | .ok transaction_date =>
          match parse_amount (some (rowAmountStr r)) with
          | .error _ => .err convSyntaxMsg
          | .ok amount =>
            match (match rowBalanceStr r with
                   | none => Except.ok (none : Option PyDec)
                   | some bs =>
                     if bs == "" then Except.ok none
                     else
                       match parse_amount (some bs) with
                       | .ok d => Except.ok (some d)
                       | .error _ => Except.error convSyntaxMsg) with
            | .error m => .err m
            | .ok balance_after =>
              match decGe0 amount with
              | .error m => .err m
              | .ok nonneg =>
                .ok ⟨transaction_date, rowDescription r, amount,
                     if nonneg then "credit" else "debit", balance_after⟩

/-- The INSERT of one normalized record (database.py lines 194-199),
including the `float(...)` conversions and the `if balance_after` truthiness
(a zero balance is bound as NULL). -/
def insertTxn (db : DB) (aid : Nat) (rec : TxnRecord) : Except String DB :=
  match floatBind rec.amount with
  | .error m => .error m
  | .ok none => .error "NOT NULL constraint failed: transactions.amount"
  | .ok (some a) =>
    match (match rec.balance_after with
           | none => Except.ok (none : Option F64)
           | some b => if decTruthy b then floatBind b else Except.ok none) with
    | .error m => .error m
    | .ok bv =>
      .ok { db with
        txns := db.txns ++
          [⟨db.next_txn_id, aid, rec.transaction_date, rec.description, a,
            rec.transaction_type, bv, db.clock, db.clock⟩],
        next_txn_id := db.next_txn_id + 1, clock := db.clock + 1 }

/-- Failure analysis of `insertTxn`, independent of the database state. -/
def insertCheck (rec : TxnRecord) : Option String :=
  match floatBind rec.amount with
  | .error m => some m
  | .ok none => some "NOT NULL constraint failed: transactions.amount"
  | .ok (some _) =>
    match rec.balance_after with
    | none => none
    | some b =>
      if decTruthy b then
        match floatBind b with
        | .error m => some m
        | .ok _ => none
      else none

/-- Fault injection for the store: `insert_fail i` makes the INSERT executed
for frame row `i` raise (caught as a row error by line 203);
`balance_update_fail` makes the UPDATE of line 218 raise;
`commit_fail` makes the final `conn.commit()` raise. -/
structure Faults where
  balance_update_fail : Bool
  commit_fail : Bool
  insert_fail : Nat → Bool

def noFaults : Faults := ⟨false, false, fun _ => false⟩

def sqliteErrMsg : String := "disk I/O error"

/-- The `errors.append(f"Row {i+7}: {str(e)}")` of line 204. -/
def tagRow (i : Nat) (m : String) : String :=
  "Row " ++ toString (i + 7) ++ ": " ++ m

structure LoopState where
  db : DB
  imported : Nat
  errors : List String
deriving DecidableEq

/-- One iteration of the transaction loop, with the inner try/except of
lines 161-205. -/
def rowBody (aid : Nat) (f : Faults) (i : Nat) (st : LoopState) (r : Row) : LoopState :=
  match processRow r with
  | .skip => st
  | .err m => { st with errors := st.errors ++ [tagRow i m] }
  | .ok rec =>
    if f.insert_fail i then { st with errors := st.errors ++ [tagRow i sqliteErrMsg] }
    else
      match insertTxn st.db aid rec with
      | .error m => { st with errors := st.errors ++ [tagRow i m] }
      | .ok db' => { st with db := db', imported := st.imported + 1 }

/-- `for i, row in df.iterrows(): ...` (lines 160-205). -/
def runRows (aid : Nat) (f : Faults) : Nat → LoopState → List Row → LoopState
  | _, st, [] => st
  | i, st, r :: rest => runRows aid f (i + 1) (rowBody aid f i st r) rest

/-! ### Balance recomputation and the orchestrator -/

def lexLtb : List Char → List Char → Bool
  | _, [] => false
  | [], _ :: _ => true
  | a :: as, b :: bs =>
    if a.toNat < b.toNat then true
    else if b.toNat < a.toNat then false
    else lexLtb as bs

/-- sqlite BINARY collation on TEXT (byte order; identical to code-point
order on the ASCII dates stored here). -/
def strLtb (s t : String) : Bool := lexLtb s.data t.data

/-- sqlite BINARY text order on the date column, then id: the comparison of
`ORDER BY transaction_date DESC, transaction_id DESC`. -/
def txnLater (t b : Txn) : Bool :=
  strLtb b.transaction_date t.transaction_date ||
    (b.transaction_date == t.transaction_date &&
      decide (b.transaction_id < t.transaction_id))

/-- The `SELECT balance_after ... ORDER BY transaction_date DESC,
transaction_id DESC LIMIT 1` of lines 210-215. -/
def latestTxn (ts : List Txn) (aid : Nat) : Option Txn :=
  (ts.filter (fun t => t.account_id == aid)).foldl
    (fun acc t =>
      match acc with
      | none => some t
      | some b => if txnLater t b then some t else some b)
    none

/-- The `UPDATE accounts SET current_balance = ?, updated_at =
CURRENT_TIMESTAMP WHERE account_id = ?` of lines 218-221. -/
def updateBalance (db : DB) (aid : Nat) (v : F64) : DB :=
  { db with
    accounts := db.accounts.map (fun a =>
      if a.account_id == aid then
        { a with current_balance := some v, updated_at := db.clock }
      else a),
    clock := db.clock + 1 }

def balanceFailMsg : String := "attempt to write a readonly database"

/-- Lines 207-221: recompute the account balance if anything was imported.
Note the `if result and result[0]:` truthiness test — a NULL **or zero**
selected balance skips the UPDATE. -/
def balancePhase (db : DB) (aid : Nat) (imported : Nat) (f : Faults) :
    Except String DB :=
  if imported > 0 then
    match latestTxn db.txns aid with
    | none => .ok db
    | some t =>
      match t.balance_after with
      | none => .ok db
      | some v =>
        if f64Truthy v then
          if f.balance_update_fail then .error balanceFailMsg
          else .ok (updateBalance db aid v)
        else .ok db
  else .ok db

/-- Result dictionary of `import_csv_data`; the structural-failure dict has
no bank/account keys, modeled as `none`. -/
structure ImportResult where
  success : Bool
  transactions_imported : Nat
  errors : List String
  bank_id : Option Nat
  account_id : Option Nat
  error : Option String
deriving DecidableEq

def failRes (msg : String) : ImportResult :=
  ⟨false, 0, [], none, none, some msg⟩

/-- The `bank_id = self.get_or_create_bank(bank_name)` binding of line 152. -/
def resolvedBank (c : Conn) (bn : String) : Nat := (get_or_create_bank c bn).1

/-- The `account_id = self.get_or_create_account(...)` binding of line 153. -/
def resolvedAccount (c : Conn) (bn an : String) (anm : Option String) : Nat :=
  (get_or_create_account (get_or_create_bank c bn).2 (get_or_create_bank c bn).1
    an anm).1

/-- Connection state after the two get-or-create steps (each of which
committed on insert). -/
def resolveConn (c : Conn) (bn an : String) (anm : Option String) : Conn :=
  (get_or_create_account (get_or_create_bank c bn).2 (get_or_create_bank c bn).1
    an anm).2

/-- The whole transaction loop of lines 156-205, started on the resolved
connection's live state. -/
def importLoop (c : Conn) (bn an : String) (anm : Option String)
    (rows : List Row) (f : Faults) : LoopState :=
  runRows (resolvedAccount c bn an anm) f 0
    ⟨(resolveConn c bn an anm).pending, 0, []⟩ rows

/-- Lines 207-240 after the loop: balance recomputation, `conn.commit()`,
the success dictionary, and the outer exception handler (rollback plus the
failure dictionary). -/
def importFinish (c2 : Conn) (bank_id account_id : Nat) (st : LoopState)
    (f : Faults) : ImportResult × Conn :=
  match balancePhase st.db account_id st.imported f with
  | .error msg => (failRes msg, dbRollback ⟨c2.committed, st.db⟩)
  | .ok db2 =>
    if f.commit_fail then (failRes sqliteErrMsg, dbRollback ⟨c2.committed, db2⟩)
    else
      (⟨true, st.imported, st.errors, some bank_id, some account_id, none⟩,
       dbCommit ⟨c2.committed, db2⟩)

/-- `BankDatabase.import_csv_data` (database.py lines 143-240).  The source
argument is the outcome of `pd.read_csv` — `.error msg` models a raised
open/parse exception, in which case the outer except rolls back and returns
the failure dictionary (the get-or-create steps never ran). -/
def import_csv_data (c : Conn) (source : Except String (List Row))
    (bank_name : String) (account_number : String) (account_name : Option String)
    (f : Faults) : ImportResult × Conn :=
  match source with
  | .error msg => (failRes msg, dbRollback c)
  | .ok rows =>
    importFinish (resolveConn c bank_name account_number account_name)
      (resolvedBank c bank_name)
      (resolvedAccount c bank_name account_number account_name)
      (importLoop c bank_name account_number account_name rows f) f

/-! ### Specification-side row accounting (for the claims about the loop) -/

/-- A row that yields an inserted transaction: classified as data,
normalized without error, and inserted without error. -/
def rowOk (r : Row) : Bool :=
  match processRow r with
  | .ok rec => (insertCheck rec).isNone
  | _ => false

def okCount : List Row → Nat
  | [] => 0
  | r :: rest => (if rowOk r then 1 else 0) + okCount rest

/-- Error-log entries the loop produces, one per failing row, tagged with
the row's position: frame row `i` sits at (0-based) position `i + 7` of the
original source (6 preamble rows + 1 header row before it). -/
def rowErrs : Nat → List Row → List String
  | _, [] => []
  | i, r :: rest =>
    (match processRow r with
     | .err m => [tagRow i m]
     | .ok rec =>
       (match insertCheck rec with
        | some m => [tagRow i m]
        | none => [])
     | .skip => []) ++ rowErrs (i + 1) rest

/-! ### Claim-side (specification) notions, for comparison with the code -/

/-- Claim-side notion of a plain decimal numeric literal, written from the
spec's words: optional sign, digits with an optional decimal point (at
least one digit), optionally an exponent part.  This is what §4.1 calls "a
decimal literal"; the code's `Decimal` grammar is wider. -/
def specDecimalLiteral (s : String) : Bool :=
  let cs :=
    match s.data with
    | '+' :: r => r
    | '-' :: r => r
    | r => r
  let ds := cs.span Char.isDigit
  let fr : Bool × (List Char × List Char) :=
    match ds.2 with
    | '.' :: r => (true, r.span Char.isDigit)
    | r => (false, ([], r))
  let ip := ds.1
  let fd := fr.2.1
  let rest := if fr.1 then fr.2.2 else ds.2
  if ip.isEmpty && fd.isEmpty then false
  else
    match rest with
    | [] => true
    | e :: r =>
      if e = 'e' || e = 'E' then
        let r2 := match r with | '+' :: t => t | '-' :: t => t | t => t
        let ed := r2.span Char.isDigit
        !ed.1.isEmpty && ed.2.isEmpty
      else false

/-- Claim-side strict ISO `YYYY-MM-DD` (zero-padded fields, valid calendar
date), from C6's words. -/
def strictISO (s : String) : Bool :=
  match s.data with
  | [y1, y2, y3, y4, '-', m1, m2, '-', d1, d2] =>
    y1.isDigit && y2.isDigit && y3.isDigit && y4.isDigit &&
    m1.isDigit && m2.isDigit && d1.isDigit && d2.isDigit &&
    dateValid (digitsToNat [y1, y2, y3, y4]) (digitsToNat [m1, m2])
      (digitsToNat [d1, d2])
  | _ => false

def blankFirstCell (r : Row) : Bool :=
  match r.c0 with | none => true | some s => pyStrip s == ""

def summaryDesc (r : Row) : Bool :=
  strHas (rowDescription r) "Total" || strHas (rowDescription r) "Beginning" ||
    strHas (rowDescription r) "Ending" || strHas (rowDescription r) "Summary"

def repeatedHeader (r : Row) : Bool :=
  (match r.c0 with | some s => pyStrip s == "Date" | none => false) ||
    rowDescription r == "Description"

def nanAmount (r : Row) : Bool :=
  match r.c2 with | none => true | some s2 => pyStrip s2 == "nan"

/-- Well-formedness of the banks table: ids below the AUTOINCREMENT counter
and no two rows sharing an id.  Holds for every state the model reaches
from `emptyDB`. -/
def BanksWF (db : DB) : Prop :=
  (∀ b ∈ db.banks, b.bank_id < db.next_bank_id) ∧
    (∀ b1 ∈ db.banks, ∀ b2 ∈ db.banks, b1.bank_id = b2.bank_id → b1 = b2)

instance (db : DB) : Decidable (BanksWF db) := by
  unfold BanksWF; infer_instance

/-! ### Concrete sample data used by witnesses and counterexamples -/

def sampleRowDebit : Row :=
  ⟨some "05/10/2024", some "coffee", some "-25.49", some "100.00"⟩

def sampleRowCredit : Row :=
  ⟨some "06/01/2024", some "pay", some "100.00", some "7.25"⟩

def sampleRowZeroBal : Row :=
  ⟨some "01/02/2024", some "opening", some "5.00", some "0.00"⟩

def sampleRowDime : Row := ⟨some "01/02/2024", some "coffee", some "0.10", none⟩

def sampleRowBadDate : Row := ⟨some "invalid-date", some "lunch", some "5", none⟩

def sampleRowBlank : Row := ⟨none, none, none, none⟩

/-- Fault set making the UPDATE of line 218 raise. -/
def balanceUpdateFault : Faults := ⟨true, false, fun _ => false⟩

def witnessTxn7 : Txn := ⟨1, 1, "2024-01-01", "d", .fin 7, "credit", some (.fin 7), 0, 0⟩

def witnessTxn0 : Txn := ⟨1, 1, "2024-01-01", "d", .fin 7, "credit", some (.fin 0), 0, 0⟩

def witnessDB7 : DB := ⟨[], [], [witnessTxn7], 1, 1, 2, 3⟩

def witnessDB0 : DB := ⟨[], [], [witnessTxn0], 1, 1, 2, 3⟩

/-! ## Theorems -/

theorem amtCond_eq (s : String) :
    (s == "" || pyStrip s == "" || pyStrip s == "nan") = amtTrivial s := by
  cases hs : s == "" with
  | true =>
    have h := eq_of_beq hs
    subst h
    decide
  | false => simp [amtTrivial, hs]

theorem parse_amount_trivial (s : String) (h : amtTrivial s = true) :
    parse_amount (some s) = .ok (.fin 0) := by
  simp [parse_amount, amtCond_eq, h]

theorem parse_amount_nontrivial (s : String) (h : amtTrivial s = false) :
    parse_amount (some s) =
      (match amtDecimal s with
       | some d => Except.ok d
       | none => Except.error s) := by
  have hc : (s == "" || pyStrip s == "" || pyStrip s == "nan") = false := by
    rw [amtCond_eq]; exact h
  simp only [parse_amount, amtDecimal, hc, Bool.false_eq_true, if_false]
  split
  · split
    · rfl
    · rfl
  · split
    · split
      · rename_i d heq
        cases h4 : decNeg d <;> simp [h4]
      · rfl
    · split
      · rfl
      · rfl

theorem startsWithC_excl (s : String) (c c' : Char) (h : startsWithC s c = true)
    (hne : c ≠ c') : startsWithC s c' = false := by
  obtain ⟨cs⟩ := s
  cases cs with
  | nil => cases h
  | cons a as =>
    have ha : a = c := eq_of_beq h
    subst ha
    simp only [startsWithC, beq_eq_false_iff_ne]
    exact hne

/-- C3 counterexample: after the cleaning transforms the remaining content
"Infinity" is not a decimal numeric literal, yet `parse_amount` does not
fail on it: the `Decimal` constructor accepts the special token, so the
call returns the value Infinity instead of raising. -/
theorem c3_counterexample :
    parse_amount (some "Infinity") = .ok (.inf false) ∧
      specDecimalLiteral "Infinity" = false := by
  decide

/-- C3 (amended): `parse_amount` returns 0.00 on null, on text empty after
stripping, and on the literal token "nan"; otherwise, after removing commas
and quote characters and stripping, a fully parenthesized decimal literal
yields the negation of the enclosed value, a text starting with '-' yields
the signed value, and any other text yields the plain parsed value; it
fails — the failure carrying the original raw text — exactly when the
selected content is not accepted by Python's `Decimal` numeric-string
grammar.  That grammar is wider than a plain decimal literal: it also
accepts exponents and the special tokens NaN/sNaN/Infinity in any case,
which are returned as non-finite values rather than raising. -/
theorem c3_amended :
    (parse_amount none = .ok (.fin 0)) ∧
    (∀ s, amtTrivial s = true → parse_amount (some s) = .ok (.fin 0)) ∧
    (∀ s q, amtTrivial s = false →
      startsWithC (amtCleaned s) '(' = true → endsWithC (amtCleaned s) ')' = true →
      pyDecimalOfString (amtInner (amtCleaned s)) = some (.fin q) →
      parse_amount (some s) = .ok (.fin (qneg q))) ∧
    (∀ s q, amtTrivial s = false → startsWithC (amtCleaned s) '-' = true →
      pyDecimalOfString (amtCleaned s) = some (.fin q) →
      parse_amount (some s) = .ok (.fin q)) ∧
    (∀ s d, amtTrivial s = false → startsWithC (amtCleaned s) '-' = false →
      (startsWithC (amtCleaned s) '(' && endsWithC (amtCleaned s) ')') = false →
      pyDecimalOfString (amtCleaned s) = some d →
      parse_amount (some s) = .ok d) ∧
    (∀ s m, parse_amount (some s) = .error m ↔
      (m = s ∧ amtTrivial s = false ∧ amtDecimal s = none)) ∧
    (parse_amount (some "1,234.56") = .ok (.fin (Rat.divInt 123456 100)) ∧
     parse_amount (some "(1,234.56)") = .ok (.fin (Rat.divInt (-123456) 100)) ∧
     parse_amount (some "-1,234.56") = .ok (.fin (Rat.divInt (-123456) 100)) ∧
     parse_amount (some "Infinity") = .ok (.inf false) ∧
     parse_amount (some "NaN") = .ok (.nan false)) := by
  refine ⟨rfl, parse_amount_trivial, ?_, ?_, ?_, ?_, ?_⟩
  · intro s q h hw1 hw2 hq
    have hminus : startsWithC (amtCleaned s) '-' = false :=
      startsWithC_excl _ _ _ hw1 (by decide)
    rw [parse_amount_nontrivial s h]
    unfold amtDecimal
    rw [hminus, hw1, hw2]
    simp [hq, decNeg]
  · intro s q h hm hq
    rw [parse_amount_nontrivial s h]
    unfold amtDecimal
    rw [hm]
    simp [hq]
  · intro s d h hm hw hq
    rw [parse_amount_nontrivial s h]
    unfold amtDecimal
    rw [hm, hw]
    simp [hq]
  · intro s m
    constructor
    · intro herr
      cases ht : amtTrivial s with
      | true =>
        rw [parse_amount_trivial s ht] at herr
        exact absurd herr (by simp)
      | false =>
        rw [parse_amount_nontrivial s ht] at herr
        cases hd : amtDecimal s with
        | some d =>
          rw [hd] at herr
          exact absurd herr (by simp)
        | none =>
          rw [hd] at herr
          simp only [Except.error.injEq] at herr
          exact ⟨herr.symm, rfl, rfl⟩
    · rintro ⟨hm, ht, hd⟩
      subst hm
      rw [parse_amount_nontrivial _ ht, hd]
  · exact ⟨by decide, by decide, by decide, by decide, by decide⟩

/-- Witness for `c3_amended` at concrete inputs: a parenthesized amount with
surrounding blanks, and the "nan" token. -/
theorem c3_amended_witness :
    parse_amount (some " (7.50) ") = .ok (.fin (qneg (Rat.divInt 75 10))) ∧
      parse_amount (some " nan ") = .ok (.fin 0) := by
  constructor
  · exact c3_amended.2.2.1 " (7.50) " (Rat.divInt 75 10) (by decide) (by decide)
      (by decide) (by decide)
  · exact c3_amended.2.1 " nan " (by decide)

theorem parse_date_slash_some (s : String) (m d y : Nat)
    (hs : containsC s '/' = true) (hm : matchMDY s.data = some (m, d, y)) :
    parse_date s =
      (if dateValid y m d then Except.ok (fmtISO y m d)
       else Except.error ("Unable to parse date: " ++ s)) := by
  unfold parse_date
  rw [hs, hm]
  rfl

theorem parse_date_noslash_some (s : String) (y m d : Nat)
    (hs : containsC s '/' = false) (hm : matchYMD s.data = some (y, m, d)) :
    parse_date s =
      (if dateValid y m d then Except.ok s
       else Except.error ("Unable to parse date: " ++ s)) := by
  unfold parse_date
  rw [hs, hm]
  rfl

/-- C6 counterexample: "2024-4-1" has no '/', is not strict ISO
`YYYY-MM-DD` (the month and day are not zero-padded), yet `parse_date`
accepts it and returns it unchanged instead of failing — `strptime`'s
`%m`/`%d` fields also match single digits. -/
theorem c6_counterexample :
    parse_date "2024-4-1" = .ok "2024-4-1" ∧ strictISO "2024-4-1" = false ∧
      containsC "2024-4-1" '/' = false := by
  decide

/-- C6 (amended): a string containing '/' is parsed strictly as
`MM/DD/YYYY` (zero-padding optional) and mapped to the ISO rendering of the
matched calendar date, failing on an invalid or unmatched date; a string
without '/' is returned **unchanged** whenever it matches `%Y-%m-%d` with a
four-digit year and one-or-two-digit month and day forming a valid date —
strict ISO `YYYY-MM-DD` included, but also non-padded forms such as
"2024-4-1" — and fails on any other shape, with the error carrying the
original raw text. -/
theorem c6_amended :
    (∀ s m d y, containsC s '/' = true → matchMDY s.data = some (m, d, y) →
      dateValid y m d = true → parse_date s = .ok (fmtISO y m d)) ∧
    (∀ s, containsC s '/' = true →
      (∀ m d y, matchMDY s.data = some (m, d, y) → dateValid y m d = false) →
      parse_date s = .error ("Unable to parse date: " ++ s)) ∧
    (∀ s y m d, containsC s '/' = false → matchYMD s.data = some (y, m, d) →
      dateValid y m d = true → parse_date s = .ok s) ∧
    (∀ s, containsC s '/' = false →
      (∀ y m d, matchYMD s.data = some (y, m, d) → dateValid y m d = false) →
      parse_date s = .error ("Unable to parse date: " ++ s)) ∧
    (parse_date "04/01/2024" = .ok "2024-04-01" ∧
     parse_date "4/1/2024" = .ok "2024-04-01" ∧
     parse_date "2024-04-01" = .ok "2024-04-01" ∧
     parse_date "invalid-date" = .error "Unable to parse date: invalid-date" ∧
     parse_date "13/01/2024" = .error "Unable to parse date: 13/01/2024" ∧
     parse_date "02/30/2024" = .error "Unable to parse date: 02/30/2024") := by
  refine ⟨?_, ?_, ?_, ?_, by decide, by decide, by decide, by decide, by decide,
    by decide⟩
  · intro s m d y hs hm hv
    rw [parse_date_slash_some s m d y hs hm, hv]
    rfl
  · intro s hs h
    unfold parse_date
    rw [hs]
    cases hm : matchMDY s.data with
    | none => rfl
    | some mdy =>
      obtain ⟨m, d, y⟩ := mdy
      have hv := h m d y hm
      simp [hv]
  · intro s y m d hs hm hv
    rw [parse_date_noslash_some s y m d hs hm, hv]
    rfl
  · intro s hs h
    unfold parse_date
    rw [hs]
    cases hm : matchYMD s.data with
    | none => rfl
    | some ymd =>
      obtain ⟨y, m, d⟩ := ymd
      have hv := h y m d hm
      simp [hv]

/-- Witness for `c6_amended` at concrete inputs: a valid non-padded MDY
date, and an MDY string whose matched date (Feb 30) is invalid. -/
theorem c6_amended_witness :
    parse_date "5/9/2024" = .ok (fmtISO 2024 5 9) ∧
      parse_date "02/30/2024" = .error ("Unable to parse date: " ++ "02/30/2024") := by
  constructor
  · exact c6_amended.1 "5/9/2024" 5 9 2024 (by decide) (by decide) (by decide)
  · refine c6_amended.2.1 "02/30/2024" (by decide) ?_
    intro m d y h
    rw [(by decide : matchMDY "02/30/2024".data = some (2, 30, 2024))] at h
    simp only [Option.some.injEq, Prod.mk.injEq] at h
    obtain ⟨h1, h2, h3⟩ := h
    subst h1
    subst h2
    subst h3
    decide

theorem insertTxn_err (db : DB) (aid : Nat) (rec : TxnRecord) (m : String)
    (h : insertCheck rec = some m) : insertTxn db aid rec = .error m := by
  unfold insertCheck at h
  unfold insertTxn
  cases hf : floatBind rec.amount with
  | error m' => simp only [hf] at h ⊢; cases h; rfl
  | ok ov =>
    simp only [hf] at h ⊢
    cases ov with
    | none => cases h; rfl
    | some a =>
      cases hb : rec.balance_after with
      | none => simp only [hb] at h; cases h
      | some b =>
        simp only [hb] at h ⊢
        cases ht : decTruthy b with
        | false => simp only [ht, Bool.false_eq_true, if_false] at h; cases h
        | true =>
          simp only [ht, if_true] at h ⊢
          cases hfb : floatBind b with
          | error m' => simp only [hfb] at h ⊢; cases h; rfl
          | ok bv => simp only [hfb] at h; cases h

theorem insertTxn_ok (db : DB) (aid : Nat) (rec : TxnRecord)
    (h : insertCheck rec = none) :
    ∃ db', insertTxn db aid rec = .ok db' ∧
      db'.banks = db.banks ∧ db'.accounts = db.accounts ∧
      db'.txns.length = db.txns.length + 1 ∧
      db'.next_bank_id = db.next_bank_id ∧
      db'.next_account_id = db.next_account_id := by
  unfold insertCheck at h
  unfold insertTxn
  cases hf : floatBind rec.amount with
  | error m' => simp only [hf] at h; cases h
  | ok ov =>
    simp only [hf] at h ⊢
    cases ov with
    | none => cases h
    | some a =>
      cases hb : rec.balance_after with
      | none => exact ⟨_, rfl, rfl, rfl, by simp, rfl, rfl⟩
      | some b =>
        simp only [hb] at h ⊢
        cases ht : decTruthy b with
        | false =>
          simp only [ht, Bool.false_eq_true, if_false] at h ⊢
          exact ⟨_, rfl, rfl, rfl, by simp, rfl, rfl⟩
        | true =>
          simp only [ht, if_true] at h ⊢
          cases hfb : floatBind b with
          | error m' => simp only [hfb] at h; cases h
          | ok bv =>
            simp only [hfb]
            exact ⟨_, rfl, rfl, rfl, by simp, rfl, rfl⟩

theorem runRows_spec (aid : Nat) (rows : List Row) : ∀ (i : Nat) (st : LoopState),
    (runRows aid noFaults i st rows).imported = st.imported + okCount rows ∧
    (runRows aid noFaults i st rows).errors = st.errors ++ rowErrs i rows ∧
    (runRows aid noFaults i st rows).db.banks = st.db.banks ∧
    (runRows aid noFaults i st rows).db.accounts = st.db.accounts ∧
    (runRows aid noFaults i st rows).db.txns.length =
      st.db.txns.length + okCount rows ∧
    (runRows aid noFaults i st rows).db.next_bank_id = st.db.next_bank_id ∧
    (runRows aid noFaults i st rows).db.next_account_id = st.db.next_account_id := by
  induction rows with
  | nil => intro i st; simp [runRows, okCount, rowErrs]
  | cons r rest ih =>
    intro i st
    have step : runRows aid noFaults i st (r :: rest) =
        runRows aid noFaults (i + 1) (rowBody aid noFaults i st r) rest := rfl
    cases hp : processRow r with
    | skip =>
      have hb : rowBody aid noFaults i st r = st := by simp [rowBody, hp]
      have hcnt : okCount (r :: rest) = okCount rest := by simp [okCount, rowOk, hp]
      have herr : rowErrs i (r :: rest) = rowErrs (i + 1) rest := by simp [rowErrs, hp]
      rw [step, hb, hcnt, herr]
      exact ih (i + 1) st
    | err m =>
      have hb : rowBody aid noFaults i st r =
          { st with errors := st.errors ++ [tagRow i m] } := by simp [rowBody, hp]
      have hcnt : okCount (r :: rest) = okCount rest := by simp [okCount, rowOk, hp]
      have herr : rowErrs i (r :: rest) = [tagRow i m] ++ rowErrs (i + 1) rest := by
        simp [rowErrs, hp]
      rw [step, hb, hcnt, herr]
      obtain ⟨ih1, ih2, ih3, ih4, ih5, ih6, ih7⟩ :=
        ih (i + 1) { st with errors := st.errors ++ [tagRow i m] }
      exact ⟨ih1, by rw [ih2]; simp, ih3, ih4, ih5, ih6, ih7⟩
    | ok rec =>
      cases hins : insertCheck rec with
      | some m =>
        have he := insertTxn_err st.db aid rec m hins
        have hb : rowBody aid noFaults i st r =
            { st with errors := st.errors ++ [tagRow i m] } := by
          simp [rowBody, hp, noFaults, he]
        have hcnt : okCount (r :: rest) = okCount rest := by
          simp [okCount, rowOk, hp, hins]
        have herr : rowErrs i (r :: rest) = [tagRow i m] ++ rowErrs (i + 1) rest := by
          simp [rowErrs, hp, hins]
        rw [step, hb, hcnt, herr]
        obtain ⟨ih1, ih2, ih3, ih4, ih5, ih6, ih7⟩ :=
          ih (i + 1) { st with errors := st.errors ++ [tagRow i m] }
        exact ⟨ih1, by rw [ih2]; simp, ih3, ih4, ih5, ih6, ih7⟩
      | none =>
        obtain ⟨db', he, hb1, hb2, hb3, hb4, hb5⟩ := insertTxn_ok st.db aid rec hins
        have hb : rowBody aid noFaults i st r =
            { st with db := db', imported := st.imported + 1 } := by
          simp [rowBody, hp, noFaults, he]
        have hcnt : okCount (r :: rest) = 1 + okCount rest := by
          simp [okCount, rowOk, hp, hins]
        have herr : rowErrs i (r :: rest) = rowErrs (i + 1) rest := by
          simp [rowErrs, hp, hins]
        rw [step, hb, hcnt, herr]
        obtain ⟨ih1, ih2, ih3, ih4, ih5, ih6, ih7⟩ :=
          ih (i + 1) { st with db := db', imported := st.imported + 1 }
        have e1 : ({ st with db := db', imported := st.imported + 1 } :
            LoopState).imported = st.imported + 1 := rfl
        have e2 : ({ st with db := db', imported := st.imported + 1 } :
            LoopState).db = db' := rfl
        refine ⟨by rw [ih1, e1]; omega, ih2, by rw [ih3, e2, hb1],
          by rw [ih4, e2, hb2], by rw [ih5, e2, hb3]; omega,
          by rw [ih6, e2, hb4], by rw [ih7, e2, hb5]⟩

theorem balancePhase_zero (db : DB) (aid : Nat) (f : Faults) :
    balancePhase db aid 0 f = .ok db := by
  simp [balancePhase]

theorem updateBalance_keep (db : DB) (aid : Nat) (v : F64) :
    (updateBalance db aid v).banks = db.banks ∧
    (updateBalance db aid v).txns = db.txns ∧
    (updateBalance db aid v).accounts.length = db.accounts.length ∧
    (updateBalance db aid v).next_bank_id = db.next_bank_id ∧
    (updateBalance db aid v).next_account_id = db.next_account_id := by
  refine ⟨rfl, rfl, ?_, rfl, rfl⟩
  simp [updateBalance]

theorem balancePhase_noFaults (db : DB) (aid : Nat) (n : Nat) :
    ∃ db', balancePhase db aid n noFaults = .ok db' ∧
      db'.banks = db.banks ∧ db'.txns = db.txns ∧
      db'.accounts.length = db.accounts.length ∧
      db'.next_bank_id = db.next_bank_id ∧
      db'.next_account_id = db.next_account_id := by
  unfold balancePhase
  by_cases hn : n > 0
  · rw [if_pos hn]
    cases ht : latestTxn db.txns aid with
    | none =>
      try simp only [ht]
      exact ⟨db, rfl, rfl, rfl, rfl, rfl, rfl⟩
    | some t =>
      try simp only [ht]
      cases hb : t.balance_after with
      | none =>
        try simp only [hb]
        exact ⟨db, rfl, rfl, rfl, rfl, rfl, rfl⟩
      | some v =>
        try simp only [hb]
        cases htr : f64Truthy v with
        | false =>
          simp only [htr, Bool.false_eq_true, if_false]
          exact ⟨db, rfl, rfl, rfl, rfl, rfl, rfl⟩
        | true =>
          simp only [htr, if_true, noFaults, Bool.false_eq_true, if_false]
          obtain ⟨k1, k2, k3, k4, k5⟩ := updateBalance_keep db aid v
          exact ⟨updateBalance db aid v, rfl, k1, k2, k3, k4, k5⟩
  · rw [if_neg hn]
    exact ⟨db, rfl, rfl, rfl, rfl, rfl, rfl⟩

theorem find?_append_none {α : Type} (p : α → Bool) (l1 l2 : List α)
    (h : l1.find? p = none) : (l1 ++ l2).find? p = l2.find? p := by
  induction l1 with
  | nil => rfl
  | cons a as ih =>
    rw [List.cons_append]
    cases hpa : p a with
    | true => simp [List.find?_cons, hpa] at h
    | false =>
      simp only [List.find?_cons, hpa] at h ⊢
      exact ih h

theorem find?_map_pres {α : Type} (g : α → α) (p : α → Bool)
    (hp : ∀ a, p (g a) = p a) : ∀ l : List α,
    (l.map g).find? p = (l.find? p).map g := by
  intro l
  induction l with
  | nil => rfl
  | cons a as ih =>
    rw [List.map_cons]
    cases hpa : p a with
    | true =>
      simp only [List.find?_cons, hp a, hpa]
      rfl
    | false =>
      simp only [List.find?_cons, hp a, hpa]
      exact ih

theorem find?_pred {α : Type} (p : α → Bool) (l : List α) (a : α)
    (h : l.find? p = some a) : p a = true := List.find?_some h

theorem gocb_find (c : Conn) (bn : String) :
    ∃ b, (get_or_create_bank c bn).2.pending.banks.find?
        (fun x => x.bank_name == bn) = some b ∧
      b.bank_id = (get_or_create_bank c bn).1 ∧ b.bank_name = bn := by
  unfold get_or_create_bank
  cases hf : c.pending.banks.find? (fun x => x.bank_name == bn) with
  | some b =>
    try simp only [hf]
    refine ⟨b, ?_, rfl, ?_⟩
    · first
      | exact hf
      | rfl
    · have hp := find?_pred _ _ _ hf
      exact eq_of_beq hp
  | none =>
    try simp only [hf]
    refine ⟨⟨c.pending.next_bank_id, bn, c.pending.clock⟩, ?_, rfl, rfl⟩
    simp only [dbCommit]
    rw [find?_append_none _ _ _ hf]
    simp [List.find?]

theorem gocb_frame (c : Conn) (bn : String) :
    (get_or_create_bank c bn).2.pending.txns = c.pending.txns ∧
    (get_or_create_bank c bn).2.pending.accounts = c.pending.accounts ∧
    (get_or_create_bank c bn).2.pending.next_account_id =
      c.pending.next_account_id := by
  unfold get_or_create_bank
  cases hf : c.pending.banks.find? (fun x => x.bank_name == bn) with
  | some b => exact ⟨rfl, rfl, rfl⟩
  | none => exact ⟨rfl, rfl, rfl⟩

theorem gocb_clean (c : Conn) (bn : String) (h : c.pending = c.committed) :
    (get_or_create_bank c bn).2.pending = (get_or_create_bank c bn).2.committed := by
  unfold get_or_create_bank
  cases hf : c.pending.banks.find? (fun x => x.bank_name == bn) with
  | some b => exact h
  | none => rfl

theorem gocb_committed_of_clean (c : Conn) (bn : String)
    (h : c.pending = c.committed) :
    (get_or_create_bank c bn).2.committed.txns = c.committed.txns ∧
    (get_or_create_bank c bn).2.committed.accounts = c.committed.accounts ∧
    (∃ b ∈ (get_or_create_bank c bn).2.committed.banks, b.bank_name = bn) := by
  unfold get_or_create_bank
  cases hf : c.pending.banks.find? (fun x => x.bank_name == bn) with
  | some b =>
    refine ⟨rfl, rfl, b, ?_, ?_⟩
    · have hb := List.mem_of_find?_eq_some hf
      rw [h] at hb
      exact hb
    · have hp := find?_pred _ _ _ hf
      exact eq_of_beq hp
  | none =>
    try simp only [hf]
    refine ⟨?_, ?_, ?_⟩
    · simp [dbCommit, h]
    · simp [dbCommit, h]
    · exact ⟨⟨c.pending.next_bank_id, bn, c.pending.clock⟩, by simp [dbCommit], rfl⟩

theorem gocacc_find (c : Conn) (bid : Nat) (an : String) (anm : Option String) :
    ∃ a, (get_or_create_account c bid an anm).2.pending.accounts.find?
        (fun x => x.bank_id == bid && x.account_number == an) = some a ∧
      a.account_id = (get_or_create_account c bid an anm).1 := by
  unfold get_or_create_account
  cases hf : c.pending.accounts.find?
      (fun x => x.bank_id == bid && x.account_number == an) with
  | some a =>
    try simp only [hf]
    refine ⟨a, ?_, rfl⟩
    first
    | exact hf
    | rfl
  | none =>
    try simp only [hf]
    refine ⟨⟨c.pending.next_account_id, bid, an, anm, "checking", 0, none, true,
      c.pending.clock, c.pending.clock⟩, ?_, rfl⟩
    simp only [dbCommit]
    rw [find?_append_none _ _ _ hf]
    simp [List.find?]

theorem gocacc_frame (c : Conn) (bid : Nat) (an : String) (anm : Option String) :
    (get_or_create_account c bid an anm).2.pending.txns = c.pending.txns ∧
    (get_or_create_account c bid an anm).2.pending.banks = c.pending.banks ∧
    (get_or_create_account c bid an anm).2.pending.next_bank_id =
      c.pending.next_bank_id := by
  unfold get_or_create_account
  cases hf : c.pending.accounts.find?
      (fun x => x.bank_id == bid && x.account_number == an) with
  | some a => exact ⟨rfl, rfl, rfl⟩
  | none => exact ⟨rfl, rfl, rfl⟩

theorem gocacc_clean (c : Conn) (bid : Nat) (an : String) (anm : Option String)
    (h : c.pending = c.committed) :
    (get_or_create_account c bid an anm).2.pending =
      (get_or_create_account c bid an anm).2.committed := by
  unfold get_or_create_account
  cases hf : c.pending.accounts.find?
      (fun x => x.bank_id == bid && x.account_number == an) with
  | some a => exact h
  | none => rfl

theorem find?_append_some {α : Type} (p : α → Bool) (l1 l2 : List α) (a : α)
    (h : l1.find? p = some a) : (l1 ++ l2).find? p = some a := by
  induction l1 with
  | nil => cases h
  | cons x xs ih =>
    rw [List.cons_append]
    cases hpx : p x with
    | true => simp only [List.find?_cons, hpx] at h ⊢; exact h
    | false =>
      simp only [List.find?_cons, hpx] at h ⊢
      exact ih h

theorem gocb_of_find (c : Conn) (bn : String) (b : Bank)
    (h : c.pending.banks.find? (fun x => x.bank_name == bn) = some b) :
    get_or_create_bank c bn = (b.bank_id, c) := by
  unfold get_or_create_bank
  rw [h]

theorem gocacc_of_find (c : Conn) (bid : Nat) (an : String) (anm : Option String)
    (a : Account)
    (h : c.pending.accounts.find?
      (fun x => x.bank_id == bid && x.account_number == an) = some a) :
    get_or_create_account c bid an anm = (a.account_id, c) := by
  unfold get_or_create_account
  rw [h]

theorem gocacc_committed_of_clean (c : Conn) (bid : Nat) (an : String)
    (anm : Option String) (h : c.pending = c.committed) :
    (get_or_create_account c bid an anm).2.committed.txns = c.committed.txns ∧
    (get_or_create_account c bid an anm).2.committed.banks = c.committed.banks := by
  unfold get_or_create_account
  cases hf : c.pending.accounts.find?
      (fun x => x.bank_id == bid && x.account_number == an) with
  | some a => exact ⟨rfl, rfl⟩
  | none => exact ⟨by simp [dbCommit, h], by simp [dbCommit, h]⟩

theorem balancePhase_full (db : DB) (aid : Nat) (n : Nat) :
    ∃ db', balancePhase db aid n noFaults = .ok db' ∧
      db'.banks = db.banks ∧ db'.txns = db.txns ∧
      db'.accounts.length = db.accounts.length ∧
      db'.next_bank_id = db.next_bank_id ∧
      db'.next_account_id = db.next_account_id ∧
      (∀ (bid : Nat) (an : String),
        (db'.accounts.find? (fun x => x.bank_id == bid && x.account_number == an)).map
            (fun a => a.account_id) =
          (db.accounts.find? (fun x => x.bank_id == bid && x.account_number == an)).map
            (fun a => a.account_id)) := by
  unfold balancePhase
  by_cases hn : n > 0
  · rw [if_pos hn]
    cases ht : latestTxn db.txns aid with
    | none =>
      try simp only [ht]
      exact ⟨db, rfl, rfl, rfl, rfl, rfl, rfl, fun _ _ => rfl⟩
    | some t =>
      try simp only [ht]
      cases hb : t.balance_after with
      | none =>
        try simp only [hb]
        exact ⟨db, rfl, rfl, rfl, rfl, rfl, rfl, fun _ _ => rfl⟩
      | some v =>
        try simp only [hb]
        cases htr : f64Truthy v with
        | false =>
          simp only [htr, Bool.false_eq_true, if_false]
          exact ⟨db, rfl, rfl, rfl, rfl, rfl, rfl, fun _ _ => rfl⟩
        | true =>
          simp only [htr, if_true, noFaults, Bool.false_eq_true, if_false]
          obtain ⟨k1, k2, k3, k4, k5⟩ := updateBalance_keep db aid v
          refine ⟨updateBalance db aid v, rfl, k1, k2, k3, k4, k5, ?_⟩
          intro bid an
          have hp : ∀ a : Account,
              ((if a.account_id == aid then
                  { a with current_balance := some v, updated_at := db.clock }
                else a).bank_id == bid &&
               (if a.account_id == aid then
                  { a with current_balance := some v, updated_at := db.clock }
                else a).account_number == an) =
              (a.bank_id == bid && a.account_number == an) := by
            intro a
            by_cases hc : (a.account_id == aid) = true <;> simp [hc]
          have hacc : (updateBalance db aid v).accounts =
              db.accounts.map (fun a =>
                if a.account_id == aid then
                  { a with current_balance := some v, updated_at := db.clock }
                else a) := rfl
          rw [hacc, @find?_map_pres Account
            (fun a => if a.account_id == aid then
              { a with current_balance := some v, updated_at := db.clock } else a)
            (fun x => x.bank_id == bid && x.account_number == an) hp db.accounts]
          cases db.accounts.find? (fun x => x.bank_id == bid && x.account_number == an) with
          | none => rfl
          | some a =>
            simp only [Option.map_some']
            split <;> rfl
  · rw [if_neg hn]
    exact ⟨db, rfl, rfl, rfl, rfl, rfl, rfl, fun _ _ => rfl⟩

theorem importNF_eq (c : Conn) (rows : List Row) (bn an : String)
    (anm : Option String) :
    ∃ db2, balancePhase (importLoop c bn an anm rows noFaults).db
        (resolvedAccount c bn an anm)
        (importLoop c bn an anm rows noFaults).imported noFaults = .ok db2 ∧
      import_csv_data c (.ok rows) bn an anm noFaults =
        (⟨true, (importLoop c bn an anm rows noFaults).imported,
          (importLoop c bn an anm rows noFaults).errors,
          some (resolvedBank c bn), some (resolvedAccount c bn an anm), none⟩,
         ⟨db2, db2⟩) ∧
      db2.banks = (importLoop c bn an anm rows noFaults).db.banks ∧
      db2.txns = (importLoop c bn an anm rows noFaults).db.txns ∧
      db2.accounts.length = (importLoop c bn an anm rows noFaults).db.accounts.length ∧
      (∀ (bid : Nat) (an' : String),
        (db2.accounts.find? (fun x => x.bank_id == bid && x.account_number == an')).map
            (fun a => a.account_id) =
          ((importLoop c bn an anm rows noFaults).db.accounts.find?
            (fun x => x.bank_id == bid && x.account_number == an')).map
            (fun a => a.account_id)) := by
  obtain ⟨db2, h, k1, k2, k3, k4, k5, k6⟩ :=
    balancePhase_full (importLoop c bn an anm rows noFaults).db
      (resolvedAccount c bn an anm) (importLoop c bn an anm rows noFaults).imported
  refine ⟨db2, h, ?_, k1, k2, k3, k6⟩
  simp only [import_csv_data]
  unfold importFinish
  rw [h]
  rfl

theorem importLoop_spec (c : Conn) (rows : List Row) (bn an : String)
    (anm : Option String) :
    (importLoop c bn an anm rows noFaults).imported = okCount rows ∧
    (importLoop c bn an anm rows noFaults).errors = rowErrs 0 rows ∧
    (importLoop c bn an anm rows noFaults).db.banks =
      (resolveConn c bn an anm).pending.banks ∧
    (importLoop c bn an anm rows noFaults).db.accounts =
      (resolveConn c bn an anm).pending.accounts ∧
    (importLoop c bn an anm rows noFaults).db.txns.length =
      (resolveConn c bn an anm).pending.txns.length + okCount rows := by
  obtain ⟨l1, l2, l3, l4, l5, _⟩ := runRows_spec (resolvedAccount c bn an anm) rows 0
    ⟨(resolveConn c bn an anm).pending, 0, []⟩
  exact ⟨by simpa [importLoop] using l1, by simpa [importLoop] using l2,
    by simpa [importLoop] using l3, by simpa [importLoop] using l4,
    by simpa [importLoop] using l5⟩

/-- C5: a row-level failure never aborts the import. On any fault-free run
over an opened source, the call returns success, `transactions_imported`
equals the number of successfully normalized rows, and the error log holds
exactly one position-tagged entry per failing row (frame row i is reported
as source row i+7, accounting for the 6-row preamble and the header). -/
theorem c5_row_level_failures (c : Conn) (rows : List Row) (bn an : String)
    (anm : Option String) :
    (import_csv_data c (.ok rows) bn an anm noFaults).1.success = true ∧
    (import_csv_data c (.ok rows) bn an anm noFaults).1.transactions_imported =
      okCount rows ∧
    (import_csv_data c (.ok rows) bn an anm noFaults).1.errors = rowErrs 0 rows := by
  obtain ⟨db2, hbp, heq, _⟩ := importNF_eq c rows bn an anm
  obtain ⟨l1, l2, _⟩ := importLoop_spec c rows bn an anm
  rw [heq]
  exact ⟨rfl, l1, l2⟩

/-- C10: if the tabularized source yields zero inserted transactions,
the call still returns success with `transactions_imported = 0` and the bank
and account ids, and the balance recompute is skipped entirely, leaving
every account row (current_balance, updated_at) exactly as the identity
resolution left it. -/
theorem c10_zero_inserted (c : Conn) (rows : List Row) (bn an : String)
    (anm : Option String) (h : okCount rows = 0) :
    (import_csv_data c (.ok rows) bn an anm noFaults).1.success = true ∧
    (import_csv_data c (.ok rows) bn an anm noFaults).1.transactions_imported = 0 ∧
    (import_csv_data c (.ok rows) bn an anm noFaults).1.errors = rowErrs 0 rows ∧
    (import_csv_data c (.ok rows) bn an anm noFaults).1.bank_id =
      some (resolvedBank c bn) ∧
    (import_csv_data c (.ok rows) bn an anm noFaults).1.account_id =
      some (resolvedAccount c bn an anm) ∧
    (import_csv_data c (.ok rows) bn an anm noFaults).2.committed.accounts =
      (resolveConn c bn an anm).pending.accounts := by
  obtain ⟨l1, l2, l3, l4, l5⟩ := importLoop_spec c rows bn an anm
  have himp : (importLoop c bn an anm rows noFaults).imported = 0 := by rw [l1, h]
  have hbp : balancePhase (importLoop c bn an anm rows noFaults).db
      (resolvedAccount c bn an anm)
      (importLoop c bn an anm rows noFaults).imported noFaults =
      .ok (importLoop c bn an anm rows noFaults).db := by
    rw [himp]; exact balancePhase_zero _ _ _
  have heq : import_csv_data c (.ok rows) bn an anm noFaults =
      (⟨true, (importLoop c bn an anm rows noFaults).imported,
        (importLoop c bn an anm rows noFaults).errors,
        some (resolvedBank c bn), some (resolvedAccount c bn an anm), none⟩,
       ⟨(importLoop c bn an anm rows noFaults).db,
        (importLoop c bn an anm rows noFaults).db⟩) := by
    simp only [import_csv_data]
    unfold importFinish
    rw [hbp]
    rfl
  rw [heq]
  exact ⟨rfl, himp, l2, rfl, rfl, l4⟩

/-- C8: a source that cannot be opened or tabularized makes the import
return success=false carrying the message, with zero transactions imported,
and creates no bank, account or transaction rows: the store is rolled back
to its pre-call committed state. -/
theorem c8_structural_failure (c : Conn) (msg bn an : String) (anm : Option String)
    (f : Faults) :
    import_csv_data c (.error msg) bn an anm f =
      ({ success := false, transactions_imported := 0, errors := [],
         bank_id := none, account_id := none, error := some msg },
       ⟨c.committed, c.committed⟩) ∧
    (import_csv_data c (.error msg) bn an anm f).2.committed.banks =
      c.committed.banks ∧
    (import_csv_data c (.error msg) bn an anm f).2.committed.accounts =
      c.committed.accounts ∧
    (import_csv_data c (.error msg) bn an anm f).2.committed.txns =
      c.committed.txns :=
  ⟨rfl, rfl, rfl, rfl⟩

/-- C1 (amended): if an exception occurs after the source was tabularized
(here: during the balance update), the import reports failure with the
message, zero transactions imported and an empty error list, and the
transaction inserts of this invocation are rolled back; however the bank
and account get-or-create INSERTs were committed immediately (lines 86 and
109) and do persist: on a clean connection the committed state after the
failed call is exactly the post-resolution committed state, which adds no
transactions but contains a bank row with the requested name. -/
theorem c1_amended (c : Conn) (rows : List Row) (bn an : String)
    (anm : Option String) (f : Faults) (msg : String)
    (hclean : c.pending = c.committed)
    (hphase : balancePhase (importLoop c bn an anm rows f).db
      (resolvedAccount c bn an anm) (importLoop c bn an anm rows f).imported f =
      .error msg) :
    import_csv_data c (.ok rows) bn an anm f =
      (failRes msg, ⟨(resolveConn c bn an anm).committed,
        (resolveConn c bn an anm).committed⟩) ∧
    (resolveConn c bn an anm).committed.txns = c.committed.txns ∧
    (∃ b ∈ (resolveConn c bn an anm).committed.banks, b.bank_name = bn) := by
  refine ⟨?_, ?_, ?_⟩
  · simp only [import_csv_data]
    unfold importFinish
    rw [hphase]
    rfl
  · obtain ⟨ht1, _, _⟩ := gocb_committed_of_clean c bn hclean
    have hcl1 := gocb_clean c bn hclean
    obtain ⟨ht2, _⟩ := gocacc_committed_of_clean (get_or_create_bank c bn).2
      (get_or_create_bank c bn).1 an anm hcl1
    unfold resolveConn
    rw [ht2, ht1]
  · have hcl1 := gocb_clean c bn hclean
    obtain ⟨_, _, b, hbmem, hbname⟩ := gocb_committed_of_clean c bn hclean
    obtain ⟨_, hbanks⟩ := gocacc_committed_of_clean (get_or_create_bank c bn).2
      (get_or_create_bank c bn).1 an anm hcl1
    unfold resolveConn
    rw [hbanks]
    exact ⟨b, hbmem, hbname⟩

/-- C2 (amended): after an import that inserted at least one transaction,
the account's current_balance is set to the latest transaction's
balance_after only when that value is truthy as a float: a present and
nonzero balance updates the account (with a fresh updated_at), while an
absent balance OR a balance equal to exactly 0.00 leaves the account row
unchanged, because `if result and result[0]:` (line 217) treats the stored
NULL (Python float 0.0 binds, and 0.0 is falsy) like a missing value. -/
theorem c2_amended :
    (∀ (db : DB) (aid n : Nat) (t : Txn) (v : F64), 0 < n →
      latestTxn db.txns aid = some t → t.balance_after = some v →
      f64Truthy v = true →
      balancePhase db aid n noFaults = .ok (updateBalance db aid v)) ∧
    (∀ (db : DB) (aid n : Nat) (t : Txn), 0 < n →
      latestTxn db.txns aid = some t →
      (t.balance_after = none ∨ t.balance_after = some (.fin 0)) →
      balancePhase db aid n noFaults = .ok db) ∧
    (∀ (db : DB) (aid : Nat) (v : F64), (updateBalance db aid v).accounts =
      db.accounts.map (fun a =>
        if a.account_id == aid then
          { a with current_balance := some v, updated_at := db.clock }
        else a)) ∧
    ((import_csv_data conn0 (.ok [sampleRowDebit, sampleRowCredit]) "B" "A" none
        noFaults).2.committed.accounts.map
        (fun a => (a.current_balance, a.updated_at)) =
      [(some (.fin (Rat.divInt 29 4)), 4)]) := by
  refine ⟨?_, ?_, fun _ _ _ => rfl, by decide⟩
  · intro db aid n t v hn ht hb htr
    unfold balancePhase
    rw [if_pos hn]
    simp only [ht, hb, htr, if_true, noFaults, Bool.false_eq_true, if_false]
  · intro db aid n t hn ht hd
    unfold balancePhase
    rw [if_pos hn]
    rcases hd with hd | hd
    · simp only [ht, hd]
    · have hf : f64Truthy (F64.fin 0) = false := by decide
      simp only [ht, hd, hf, Bool.false_eq_true, if_false]

theorem c2_amended_witness :
    balancePhase witnessDB7 1 1 noFaults = .ok (updateBalance witnessDB7 1 (.fin 7)) ∧
      balancePhase witnessDB0 1 1 noFaults = .ok witnessDB0 := by
  constructor
  · exact c2_amended.1 witnessDB7 1 1 witnessTxn7 (.fin 7) (by decide) (by decide)
      (by decide) (by decide)
  · exact c2_amended.2.1 witnessDB0 1 1 witnessTxn0 (by decide) (by decide)
      (Or.inr (by decide))

/-- C7 (amended): monetary values are exact decimals through parsing and
normalization, but the INSERT boundary converts them with `float(...)`
(line 199), so the persisted amount is the IEEE-754 binary64 rounding of
the decimal value: the row amount "0.10" is normalized exactly to 1/10 yet
stored as 3602879701896397/2^55, which differs from 1/10. -/
theorem c7_amended :
    (∀ (db : DB) (aid : Nat) (rec : TxnRecord) (q : ℚ), rec.amount = .fin q →
      insertCheck rec = none →
      ∃ db', insertTxn db aid rec = .ok db' ∧
        db'.txns.map (fun t => t.amount) =
          db.txns.map (fun t => t.amount) ++ [roundF64 q]) ∧
    (processRow sampleRowDime =
      .ok ⟨"2024-01-02", "coffee", .fin (Rat.divInt 1 10), "credit", none⟩) ∧
    ((import_csv_data conn0 (.ok [sampleRowDime]) "B" "A" none
        noFaults).2.committed.txns.map (fun t => t.amount) =
      [.fin (Rat.divInt 3602879701896397 36028797018963968)]) ∧
    (Rat.divInt 3602879701896397 36028797018963968 ≠ Rat.divInt 1 10) := by
  refine ⟨?_, by decide, by decide, by decide⟩
  intro db aid rec q hq hins
  unfold insertCheck at hins
  unfold insertTxn
  rw [hq] at hins ⊢
  simp only [show floatBind (.fin q) = Except.ok (some (roundF64 q)) from rfl]
    at hins ⊢
  cases hb : rec.balance_after with
  | none =>
    refine ⟨_, rfl, ?_⟩
    simp
  | some b =>
    simp only [hb] at hins ⊢
    cases ht : decTruthy b with
    | false =>
      simp only [ht, Bool.false_eq_true, if_false] at hins ⊢
      refine ⟨_, rfl, ?_⟩
      simp
    | true =>
      simp only [ht, if_true] at hins ⊢
      cases hfb : floatBind b with
      | error m =>
        try simp only [hfb] at hins
        cases hins
      | ok bv =>
        try simp only [hfb]
        refine ⟨_, rfl, ?_⟩
        simp

theorem gocb_of_find_none (c : Conn) (bn : String)
    (h : c.pending.banks.find? (fun x => x.bank_name == bn) = none) :
    (get_or_create_bank c bn).1 = c.pending.next_bank_id ∧
    (get_or_create_bank c bn).2.pending.banks =
      c.pending.banks ++ [⟨c.pending.next_bank_id, bn, c.pending.clock⟩] ∧
    (get_or_create_bank c bn).2.pending.next_bank_id =
      c.pending.next_bank_id + 1 := by
  unfold get_or_create_bank
  rw [h]
  exact ⟨rfl, rfl, rfl⟩

/-- C9: identity resolution is idempotent while transaction insertion is
not: get_or_create_bank called twice with one name yields the same id and
state; a distinct second name yields a different id (given well-formed bank
ids); get_or_create_account is idempotent on the same (bank_id,
account_number) pair; and re-importing the identical statement on a clean
connection creates no new bank rows and no new account rows yet inserts
the same number of duplicate transaction rows again. -/
theorem c9_identity_resolution :
    (∀ (c : Conn) (bn : String),
      (get_or_create_bank (get_or_create_bank c bn).2 bn).1 =
        (get_or_create_bank c bn).1 ∧
      (get_or_create_bank (get_or_create_bank c bn).2 bn).2 =
        (get_or_create_bank c bn).2) ∧
    (∀ (c : Conn) (bn bn' : String), bn ≠ bn' → BanksWF c.pending →
      (get_or_create_bank (get_or_create_bank c bn).2 bn').1 ≠
        (get_or_create_bank c bn).1) ∧
    (∀ (c : Conn) (bid : Nat) (an : String) (anm anm' : Option String),
      (get_or_create_account (get_or_create_account c bid an anm).2 bid an anm').1 =
        (get_or_create_account c bid an anm).1 ∧
      (get_or_create_account (get_or_create_account c bid an anm).2 bid an anm').2 =
        (get_or_create_account c bid an anm).2) ∧
    (∀ (c : Conn) (rows : List Row) (bn an : String) (anm : Option String),
      c.pending = c.committed →
      (import_csv_data (import_csv_data c (.ok rows) bn an anm noFaults).2
          (.ok rows) bn an anm noFaults).2.committed.banks =
        (import_csv_data c (.ok rows) bn an anm noFaults).2.committed.banks ∧
      (import_csv_data (import_csv_data c (.ok rows) bn an anm noFaults).2
          (.ok rows) bn an anm noFaults).2.committed.accounts.length =
        (import_csv_data c (.ok rows) bn an anm noFaults).2.committed.accounts.length ∧
      (import_csv_data (import_csv_data c (.ok rows) bn an anm noFaults).2
          (.ok rows) bn an anm noFaults).2.committed.txns.length =
        (import_csv_data c (.ok rows) bn an anm noFaults).2.committed.txns.length +
          okCount rows ∧
      (import_csv_data (import_csv_data c (.ok rows) bn an anm noFaults).2
          (.ok rows) bn an anm noFaults).1.transactions_imported =
        (import_csv_data c (.ok rows) bn an anm noFaults).1.transactions_imported) := by
  refine ⟨?_, ?_, ?_, ?_⟩
  · intro c bn
    obtain ⟨b, hfind, hid, _⟩ := gocb_find c bn
    rw [gocb_of_find _ bn b hfind]
    exact ⟨hid, rfl⟩
  · intro c bn bn' hne hwf
    obtain ⟨hbound, hinj⟩ := hwf
    cases hf1 : c.pending.banks.find? (fun x => x.bank_name == bn) with
    | some b1 =>
      rw [gocb_of_find c bn b1 hf1]
      show (get_or_create_bank c bn').1 ≠ b1.bank_id
      cases hf2 : c.pending.banks.find? (fun x => x.bank_name == bn') with
      | some b2 =>
        rw [gocb_of_find c bn' b2 hf2]
        intro heq
        have hm1 := List.mem_of_find?_eq_some hf1
        have hm2 := List.mem_of_find?_eq_some hf2
        have hp1 := find?_pred _ _ _ hf1
        have hp2 := find?_pred _ _ _ hf2
        have hb1 : b1.bank_name = bn := eq_of_beq hp1
        have hb2 : b2.bank_name = bn' := eq_of_beq hp2
        have hbb : b2 = b1 := hinj b2 hm2 b1 hm1 heq
        rw [hbb, hb1] at hb2
        exact hne hb2
      | none =>
        obtain ⟨hid2, _, _⟩ := gocb_of_find_none c bn' hf2
        rw [hid2]
        intro heq
        have hm1 := List.mem_of_find?_eq_some hf1
        have := hbound b1 hm1
        omega
    | none =>
      obtain ⟨hid1, hbanks1, hnext1⟩ := gocb_of_find_none c bn hf1
      rw [hid1]
      cases hf2 : (get_or_create_bank c bn).2.pending.banks.find?
          (fun x => x.bank_name == bn') with
      | some b2 =>
        rw [gocb_of_find _ bn' b2 hf2]
        show b2.bank_id ≠ c.pending.next_bank_id
        intro heq
        have hm2 := List.mem_of_find?_eq_some hf2
        rw [hbanks1] at hm2
        have hp2 := find?_pred _ _ _ hf2
        have hb2 : b2.bank_name = bn' := eq_of_beq hp2
        rcases List.mem_append.mp hm2 with hin | hnew
        · have := hbound b2 hin
          omega
        · have hb2eq : b2 = ⟨c.pending.next_bank_id, bn, c.pending.clock⟩ := by
            simpa using hnew
          rw [hb2eq] at hb2
          exact hne hb2
      | none =>
        obtain ⟨hid2, _, _⟩ := gocb_of_find_none _ bn' hf2
        rw [hid2, hnext1]
        omega
  · intro c bid an anm anm'
    obtain ⟨a, hfind, hid⟩ := gocacc_find c bid an anm
    rw [gocacc_of_find _ bid an anm' a hfind]
    exact ⟨hid, rfl⟩
  · intro c rows bn an anm hclean
    obtain ⟨db2, hbp1, heq1, hk1, hk2, hk3, hk6⟩ := importNF_eq c rows bn an anm
    obtain ⟨l1, l2, l3, l4, l5⟩ := importLoop_spec c rows bn an anm
    obtain ⟨b, hbfind, hbid, hbname⟩ := gocb_find c bn
    obtain ⟨a0, hafind, haid⟩ := gocacc_find (get_or_create_bank c bn).2
      (get_or_create_bank c bn).1 an anm
    have hfr := (gocacc_frame (get_or_create_bank c bn).2
      (get_or_create_bank c bn).1 an anm).2.1
    rw [heq1]
    -- bank find in the committed state of the first import
    have hbfind2 : (⟨db2, db2⟩ : Conn).pending.banks.find?
        (fun x => x.bank_name == bn) = some b := by
      show db2.banks.find? (fun x => x.bank_name == bn) = some b
      rw [hk1, l3]
      show (resolveConn c bn an anm).pending.banks.find?
        (fun x => x.bank_name == bn) = some b
      unfold resolveConn
      rw [hfr]
      exact hbfind
    have hb2eq : get_or_create_bank (⟨db2, db2⟩ : Conn) bn = (b.bank_id, ⟨db2, db2⟩) :=
      gocb_of_find _ bn b hbfind2
    -- account find (up to account_id projection) in the committed state
    have hafind2 : ((⟨db2, db2⟩ : Conn).pending.accounts.find?
        (fun x => x.bank_id == b.bank_id && x.account_number == an)).map
          (fun a => a.account_id) = some a0.account_id := by
      show (db2.accounts.find?
        (fun x => x.bank_id == b.bank_id && x.account_number == an)).map
          (fun a => a.account_id) = some a0.account_id
      rw [hk6 b.bank_id an, l4]
      show ((resolveConn c bn an anm).pending.accounts.find?
        (fun x => x.bank_id == b.bank_id && x.account_number == an)).map
          (fun a => a.account_id) = some a0.account_id
      unfold resolveConn
      rw [hbid, hafind]
      rfl
    obtain ⟨a1, hafind2', haid1⟩ :
        ∃ a1, (⟨db2, db2⟩ : Conn).pending.accounts.find?
          (fun x => x.bank_id == b.bank_id && x.account_number == an) = some a1 ∧
          a1.account_id = a0.account_id := by
      cases hc : (⟨db2, db2⟩ : Conn).pending.accounts.find?
          (fun x => x.bank_id == b.bank_id && x.account_number == an) with
      | none => rw [hc] at hafind2; cases hafind2
      | some a1 =>
        rw [hc] at hafind2
        exact ⟨a1, rfl, by simpa using hafind2⟩
    -- second resolution leaves the connection unchanged
    have hres2 : resolveConn (⟨db2, db2⟩ : Conn) bn an anm = ⟨db2, db2⟩ := by
      unfold resolveConn
      rw [hb2eq]
      show (get_or_create_account (⟨db2, db2⟩ : Conn) b.bank_id an anm).2 = _
      rw [gocacc_of_find _ b.bank_id an anm a1 hafind2']
    -- characterize the second import
    obtain ⟨db2', hbp2, heq2, hk1', hk2', hk3', hk6'⟩ :=
      importNF_eq (⟨db2, db2⟩ : Conn) rows bn an anm
    obtain ⟨l1', l2', l3', l4', l5'⟩ := importLoop_spec (⟨db2, db2⟩ : Conn) rows bn an anm
    rw [heq2]
    refine ⟨?_, ?_, ?_, ?_⟩
    · show db2'.banks = db2.banks
      rw [hk1', l3', hres2]
    · show db2'.accounts.length = db2.accounts.length
      rw [hk3', l4', hres2]
    · show db2'.txns.length = db2.txns.length + okCount rows
      rw [hk2', l5', hres2]
    · show (importLoop (⟨db2, db2⟩ : Conn) bn an anm rows noFaults).imported =
        (importLoop c bn an anm rows noFaults).imported
      rw [l1', l1]

/-- Witness for `c9_identity_resolution` at concrete names and a concrete
one-row statement on the fresh connection. -/
theorem c9_identity_resolution_witness :
    (("A" : String) ≠ "B" ∧ BanksWF conn0.pending ∧
      conn0.pending = conn0.committed) ∧
    (get_or_create_bank (get_or_create_bank conn0 "A").2 "B").1 ≠
      (get_or_create_bank conn0 "A").1 ∧
    (import_csv_data
        (import_csv_data conn0 (.ok [sampleRowDebit]) "A" "1" none noFaults).2
        (.ok [sampleRowDebit]) "A" "1" none noFaults).2.committed.txns.length =
      (import_csv_data conn0
        (.ok [sampleRowDebit]) "A" "1" none noFaults).2.committed.txns.length +
        okCount [sampleRowDebit] :=
  ⟨⟨by decide, by decide, rfl⟩,
   c9_identity_resolution.2.1 conn0 "A" "B" (by decide) (by decide),
   (c9_identity_resolution.2.2.2 conn0 [sampleRowDebit] "A" "1" none rfl).2.2.1⟩

/-- C1 counterexample: a balance-update failure on a fresh store reports
failure, but the bank row "B" and the account row "A" created by this very
invocation persist in the committed state, which started empty: the
get-or-create INSERTs were committed before the rollback. -/
theorem c1_counterexample :
    (import_csv_data conn0 (.ok [sampleRowDebit]) "B" "A" none
        balanceUpdateFault).1.success = false ∧
    (import_csv_data conn0 (.ok [sampleRowDebit]) "B" "A" none
        balanceUpdateFault).1.transactions_imported = 0 ∧
    (import_csv_data conn0 (.ok [sampleRowDebit]) "B" "A" none
        balanceUpdateFault).2.committed.banks.map (fun b => b.bank_name) =
      ["B"] ∧
    (import_csv_data conn0 (.ok [sampleRowDebit]) "B" "A" none
        balanceUpdateFault).2.committed.accounts.map
        (fun a => a.account_number) = ["A"] ∧
    conn0.committed.banks = [] ∧ conn0.committed.accounts = [] := by
  decide

/-- Witness for `c1_amended` on a concrete fresh connection with a
balance-update fault. -/
theorem c1_amended_witness :
    (conn0.pending = conn0.committed ∧
     balancePhase
       (importLoop conn0 "B" "A" none [sampleRowDebit] balanceUpdateFault).db
       (resolvedAccount conn0 "B" "A" none)
       (importLoop conn0 "B" "A" none [sampleRowDebit] balanceUpdateFault).imported
       balanceUpdateFault = .error balanceFailMsg) ∧
    import_csv_data conn0 (.ok [sampleRowDebit]) "B" "A" none balanceUpdateFault =
      (failRes balanceFailMsg, ⟨(resolveConn conn0 "B" "A" none).committed,
        (resolveConn conn0 "B" "A" none).committed⟩) :=
  ⟨⟨rfl, by decide⟩,
   (c1_amended conn0 [sampleRowDebit] "B" "A" none balanceUpdateFault
      balanceFailMsg rfl (by decide)).1⟩

/-- C2 counterexample: a transaction whose balance_after parses to exactly
0.00 is stored with NULL balance (float 0.0 is falsy at line 199) and the
balance update is skipped (line 217), so current_balance is NOT set to
0.00, contradicting the claim's "including when it equals exactly 0.00". -/
theorem c2_counterexample :
    (import_csv_data conn0 (.ok [sampleRowZeroBal]) "B" "A" none
        noFaults).1.transactions_imported = 1 ∧
    (import_csv_data conn0 (.ok [sampleRowZeroBal]) "B" "A" none
        noFaults).2.committed.txns.map (fun t => t.balance_after) = [none] ∧
    (import_csv_data conn0 (.ok [sampleRowZeroBal]) "B" "A" none
        noFaults).2.committed.accounts.map
        (fun a => (a.current_balance, a.updated_at)) = [(none, 1)] ∧
    parse_amount "0.00" = .ok (.fin 0) := by
  decide

/-- C4: a row with a blank or missing first cell, a description containing
"Total", "Beginning", "Ending" or "Summary", a repeated header row, or a
missing/empty/literal-"nan" amount cell is skipped, producing neither a
transaction record nor a row error; these checks precede date/amount
parsing, so such rows never yield parse errors. -/
theorem c4_classifier_skips (r : Row)
    (h : blankFirstCell r = true ∨ summaryDesc r = true ∨
      repeatedHeader r = true ∨ nanAmount r = true) : processRow r = .skip := by
  obtain ⟨c0, c1, c2, c3⟩ := r
  cases c0 with
  | none => rfl
  | some s0 =>
    simp only [blankFirstCell, summaryDesc, repeatedHeader, nanAmount,
      rowDescription, Bool.or_eq_true] at h
    rcases h with h | h | h | h
    · simp_all [processRow]
    · rcases h with ((h | h) | h) | h <;> simp_all [processRow, rowDescription]
    · rcases h with h | h <;> simp_all [processRow, rowDescription]
    · simp_all [processRow, rowDescription]

/-- Witness for `c4_classifier_skips` on the all-blank row. -/
theorem c4_classifier_skips_witness :
    blankFirstCell sampleRowBlank = true ∧ processRow sampleRowBlank = .skip :=
  ⟨by decide, c4_classifier_skips sampleRowBlank (Or.inl (by decide))⟩

/-- C7 counterexample: the amount "0.10" normalizes exactly to 1/10, but
the value persisted for it is the binary64 rounding
3602879701896397/36028797018963968, which is not 1/10: binary
floating-point rounding is introduced before persistence. -/
theorem c7_counterexample :
    processRow sampleRowDime =
      .ok ⟨"2024-01-02", "coffee", .fin (Rat.divInt 1 10), "credit", none⟩ ∧
    (import_csv_data conn0 (.ok [sampleRowDime]) "B" "A" none
        noFaults).2.committed.txns.map (fun t => t.amount) =
      [.fin (Rat.divInt 3602879701896397 36028797018963968)] ∧
    Rat.divInt 3602879701896397 36028797018963968 ≠ Rat.divInt 1 10 := by
  decide

/-- Witness for `c7_amended` at a concrete ten-cent record. -/
theorem c7_amended_witness :
    ((⟨"2024-01-02", "coffee", .fin (Rat.divInt 1 10), "credit", none⟩ :
        TxnRecord).amount = .fin (Rat.divInt 1 10) ∧
     insertCheck ⟨"2024-01-02", "coffee", .fin (Rat.divInt 1 10), "credit",
        none⟩ = none) ∧
    ∃ db', insertTxn emptyDB 1
        ⟨"2024-01-02", "coffee", .fin (Rat.divInt 1 10), "credit", none⟩ =
        .ok db' ∧
      db'.txns.map (fun t => t.amount) =
        emptyDB.txns.map (fun t => t.amount) ++
          [roundF64 (Rat.divInt 1 10)] :=
  ⟨⟨rfl, by decide⟩,
   c7_amended.1 emptyDB 1
     ⟨"2024-01-02", "coffee", .fin (Rat.divInt 1 10), "credit", none⟩
     (Rat.divInt 1 10) rfl (by decide)⟩

/-- Witness for `c10_zero_inserted` on a one-row source whose only row is
blank and hence skipped. -/
theorem c10_zero_inserted_witness :
    okCount [sampleRowBlank] = 0 ∧
    (import_csv_data conn0 (.ok [sampleRowBlank]) "B" "A" none
        noFaults).1.success = true ∧
    (import_csv_data conn0 (.ok [sampleRowBlank]) "B" "A" none
        noFaults).1.transactions_imported = 0 :=
  ⟨by decide, (c10_zero_inserted conn0 [sampleRowBlank] "B" "A" none
      (by decide)).1,
    (c10_zero_inserted conn0 [sampleRowBlank] "B" "A" none (by decide)).2.1⟩
